import Mathlib

/-!
# Verification of `docs/websocket/python_client_example.py`

A shallow embedding of the Socket.IO example client shipped with
RAGFlow Simple UI, together with proofs of the specification claims.

The script is a single-file Python program.  Its state is the module-level
`socketio.Client` object (whose only observable field used by the script is
the `connected` flag), the three configuration constants read from the
environment, and a collection of event handlers plus a `main` entry point.

Python dictionaries are embedded as association lists over an inductive
`PyValue` type; `dict.get` with a default and `dict[...]` (which raises
`KeyError`) are modelled separately; Python truthiness is `truthy`.
Raising code is embedded in `Except`; code that cannot raise is pure.
Console output is a list of `OutLine` values (timestamps produced by
`datetime.now()` are ambient nondeterminism and are omitted from the
embedding); side effects on the socket are `Effect` values.
-/

/-- A Python value, as far as the script manipulates values: `None`,
booleans, integers, strings and dictionaries. -/
inductive PyValue where
  | pynone
  | pybool (b : Bool)
  | pyint (n : Int)
  | pystr (s : String)
  | pydict (entries : List (String × PyValue))

/-- A Python dictionary with string keys, as an association list. -/
abbrev Dict := List (String × PyValue)

/-- Python truthiness: `None`, `False`, `0`, `""` and `{}` are falsy. -/
def truthy : PyValue → Bool
  | .pynone => false
  | .pybool b => b
  | .pyint n => n != 0
  | .pystr s => s != ""
  | .pydict d => !d.isEmpty

/-- Lookup of a key in a dictionary: `some v` when present, `none` when absent. -/
def dictGet? (d : Dict) (k : String) : Option PyValue :=
  (List.find? (fun p => p.1 == k) d).map Prod.snd

/-- Python `d.get(k, default)`: the stored value when the key is present
(even when that value is `None`), the default otherwise. -/
def pyGet (d : Dict) (k : String) (default : PyValue) : PyValue :=
  (dictGet? d k).getD default

/-- Python `d[k]`: the stored value, or a `KeyError` when the key is absent. -/
def pyIndex (d : Dict) (k : String) : Except String PyValue :=
  match dictGet? d k with
  | some v => Except.ok v
  | none => Except.error "KeyError"

/-- The process environment as seen through `os.getenv`: each variable is
either set (to any string, possibly empty) or unset. -/
structure Env where
  socket_url : Option String
  websocket_api_key : Option String
  user_email : Option String

/-- Line 25: `SOCKET_URL = os.getenv('SOCKET_URL', 'http://localhost:3001')`. -/
def SOCKET_URL (e : Env) : String := e.socket_url.getD "http://localhost:3001"

/-- Line 26: `API_KEY = os.getenv('WEBSOCKET_API_KEY', '')`. -/
def API_KEY (e : Env) : String := e.websocket_api_key.getD ""

/-- Line 27: `USER_EMAIL = os.getenv('USER_EMAIL', 'python-client@example.com')`. -/
def USER_EMAIL (e : Env) : String := e.user_email.getD "python-client@example.com"

/-- The masked form of the API key printed by the banner (line 114):
`"*" * len(API_KEY) if API_KEY else "(not set)"`. -/
def maskedApiKey (apiKey : String) : String :=
  if apiKey ≠ "" then String.mk (List.replicate apiKey.length '*') else "(not set)"

/-- The startup banner printed by `main` (lines 111-117), as exact strings. -/
def banner (socketUrl apiKey userEmail : String) : List String :=
  [ "RAGFlow Socket.IO Python Client"
  , String.mk (List.replicate 40 '=')
  , "Server URL: " ++ socketUrl
  , "API Key: " ++ maskedApiKey apiKey
  , "User Email: " ++ userEmail
  , String.mk (List.replicate 40 '=')
  , "" ]

/-- The `auth_payload` built by `main` (lines 126-128): `{'email': USER_EMAIL}`,
with `'apiKey'` added exactly when `API_KEY` is truthy (non-empty). -/
def auth_payload (apiKey userEmail : String) : Dict :=
  let base : Dict := [("email", PyValue.pystr userEmail)]
  if apiKey ≠ "" then base ++ [("apiKey", PyValue.pystr apiKey)] else base

/-- A console line printed by the script.  Banner lines are exact strings;
lines whose text interpolates `datetime.now()` are represented by a
constructor carrying the data actually printed besides the timestamp. -/
inductive OutLine where
  | text (s : String)
  | warningNoApiKey1
  | warningNoApiKey2
  | blank
  | connectingTo (url : String)
  | waitingLine
  | failedToConnect (msg : String)
  | interruptedByUser
  | disconnectedGracefully
  | connectedLine (sid : String)
  | subscribedLine (room : String)
  | disconnectedLine
  | connectFailedLine (data : PyValue)
  | authFailedLine (msg : PyValue)
  | checkApiKeyLine
  | notifHeader
  | notifType (v : PyValue)
  | notifTitle (v : PyValue)
  | notifMessage (v : PyValue)
  | notifData (v : PyValue)
  | notifTimestamp (v : PyValue)
  | notifSeparator
  | pongReceived (v : PyValue)
  | serverShutdownLine (v : PyValue)
  | pingSent

/-- A side effect performed on the Socket.IO client: `sio.emit(event, arg)`
(`arg = none` for `sio.emit('ping')`), or closing the connection
(`sio.disconnect()`). -/
inductive Effect where
  | emit (event : String) (arg : Option String)
  | closeConn
deriving DecidableEq

/-- The observable state of the module-level `socketio.Client` object: the
script reads only its `connected` flag (line 149).  The script itself defines
no further mutable state. -/
structure PyClientState where
  connected : Bool
deriving DecidableEq

/-- The `connect` event handler (lines 38-45): prints, then
`sio.emit('subscribe', 'python-clients')` and prints again.
It does not modify the client state. -/
def connect_handler (st : PyClientState) (sid : String) :
    PyClientState × List Effect × List OutLine :=
  (st, [Effect.emit "subscribe" (some "python-clients")],
   [OutLine.connectedLine sid, OutLine.subscribedLine "python-clients"])

/-- The `disconnect` event handler (lines 48-51): a single print. -/
def disconnect_handler (st : PyClientState) :
    PyClientState × List Effect × List OutLine :=
  (st, [], [OutLine.disconnectedLine])

/-- The `connect_error` event handler (lines 54-57): a single print. -/
def connect_error_handler (st : PyClientState) (data : PyValue) :
    PyClientState × List Effect × List OutLine :=
  (st, [], [OutLine.connectFailedLine data])

/-- The `auth:error` event handler (lines 60-64): prints
`data.get("message", "Unknown error")` and a fixed hint line. -/
def on_auth_error (st : PyClientState) (data : Dict) :
    PyClientState × List Effect × List OutLine :=
  (st, [],
   [OutLine.authFailedLine (pyGet data "message" (PyValue.pystr "Unknown error")),
    OutLine.checkApiKeyLine])

/-- The optional `Title:` line of `on_notification` (lines 82-83):
printed, by direct indexing `data["title"]`, only when `data.get('title')`
is truthy. -/
def titleSection (data : Dict) : Except String (List OutLine) :=
  if truthy (pyGet data "title" PyValue.pynone) then
    match pyIndex data "title" with
    | Except.ok v => Except.ok [OutLine.notifTitle v]
    | Except.error e => Except.error e
  else Except.ok []

/-- The optional `Data:` line of `on_notification` (lines 85-86):
printed, by direct indexing `data["data"]`, only when `data.get('data')`
is truthy. -/
def dataSection (data : Dict) : Except String (List OutLine) :=
  if truthy (pyGet data "data" PyValue.pynone) then
    match pyIndex data "data" with
    | Except.ok v => Except.ok [OutLine.notifData v]
    | Except.error e => Except.error e
  else Except.ok []

/-- The `notification` event handler (lines 67-88).  Sequential Python
execution: a `KeyError` raised by `data["title"]` aborts the handler before
the later lines run. -/
def on_notification (data : Dict) : Except String (List OutLine) :=
  match titleSection data, dataSection data with
  | Except.ok ts, Except.ok ds =>
      Except.ok
        ([OutLine.notifHeader,
          OutLine.notifType (pyGet data "type" (PyValue.pystr "unknown"))]
         ++ ts
         ++ [OutLine.notifMessage (pyGet data "message" (PyValue.pystr ""))]
         ++ ds
         ++ [OutLine.notifTimestamp (pyGet data "timestamp" (PyValue.pystr "N/A")),
             OutLine.notifSeparator])
  | Except.error e, _ => Except.error e
  | _, Except.error e => Except.error e

/-- The `pong` event handler (lines 91-94): a single print; the client state
is untouched (no liveness timestamp exists in the script). -/
def on_pong (st : PyClientState) (data : PyValue) :
    PyClientState × List Effect × List OutLine :=
  (st, [], [OutLine.pongReceived data])

/-- The `server:shutdown` event handler (lines 97-100): a single print. -/
def on_server_shutdown (st : PyClientState) (data : PyValue) :
    PyClientState × List Effect × List OutLine :=
  (st, [], [OutLine.serverShutdownLine data])

/-- Lines 103-106, `send_ping`: `sio.emit('ping')` and a print.  Defined at
module level but called from nowhere in the script. -/
def send_ping (st : PyClientState) : PyClientState × List Effect × List OutLine :=
  (st, [Effect.emit "ping" none], [OutLine.pingSent])

/-- The warning block of `main` (lines 119-122): printed exactly when
`API_KEY` is falsy (empty). -/
def warningLines (apiKey : String) : List OutLine :=
  if apiKey ≠ "" then []
  else [OutLine.warningNoApiKey1, OutLine.warningNoApiKey2, OutLine.blank]

/-- Everything `main` prints before `sio.connect` (lines 111-131). -/
def preConnectOut (env : Env) : List OutLine :=
  (banner (SOCKET_URL env) (API_KEY env) (USER_EMAIL env)).map OutLine.text
    ++ [OutLine.blank]
    ++ warningLines (API_KEY env)
    ++ [OutLine.connectingTo (SOCKET_URL env)]

/-- The pre-connect phase of `main` (lines 111-131): banner, optional
warning, auth payload.  None of this code can raise, so the embedding always
returns `Except.ok`. -/
def preConnect (env : Env) : Except String (List OutLine × Dict) :=
  Except.ok (preConnectOut env, auth_payload (API_KEY env) (USER_EMAIL env))

/-- What the try-block does after the pre-connect phase: `sio.wait()`
returns, or `sio.connect` raises `socketio.exceptions.ConnectionError`, or a
`KeyboardInterrupt` arrives during the wait. -/
inductive TryOutcome where
  | waitReturns
  | raiseConnectionError (msg : String)
  | raiseKeyboardInterrupt
deriving DecidableEq

/-- The observable result of one run of `main`: console output, socket
effects performed by `main` itself, and the process exit status. -/
structure MainRun where
  output : List OutLine
  effects : List Effect
  exitCode : Nat

/-- One run of `main` (lines 109-153).  `connectedAtFinally` is the value of
`sio.connected` when the `finally` block runs; `unsubscribeRaises` says
whether `sio.emit('unsubscribe', ...)` (line 151) raises.  Faithful to the
Python control flow: `ConnectionError` and `KeyboardInterrupt` are caught
and printed; the `finally` block guards on `sio.connected`; an exception
raised by the unsubscribe emit aborts the rest of the `finally` block
(there is no inner try), propagates out of `main` uncaught, and makes the
interpreter exit with a non-zero status; in every other case `main` returns
and the process exits with status `0`. -/
def mainRun (env : Env) (outcome : TryOutcome) (connectedAtFinally : Bool)
    (unsubscribeRaises : Bool) : MainRun :=
  let tryOut : List OutLine :=
    match outcome with
    | TryOutcome.waitReturns => [OutLine.waitingLine, OutLine.blank]
    | TryOutcome.raiseConnectionError msg => [OutLine.failedToConnect msg]
    | TryOutcome.raiseKeyboardInterrupt =>
        [OutLine.waitingLine, OutLine.blank, OutLine.interruptedByUser]
  let fin : List OutLine × List Effect × Nat :=
    if connectedAtFinally then
      if unsubscribeRaises then
        ([], [Effect.emit "unsubscribe" (some "python-clients")], 1)
      else
        ([OutLine.disconnectedGracefully],
         [Effect.emit "unsubscribe" (some "python-clients"), Effect.closeConn], 0)
    else ([], [], 0)
  { output := preConnectOut env ++ tryOut ++ fin.1
    effects := fin.2.1
    exitCode := fin.2.2 }

/-- The reconnection configuration passed to `socketio.Client` (lines 30-35). -/
structure SioConfig where
  reconnection : Bool
  reconnection_attempts : Nat
  reconnection_delay : Nat
  reconnection_delay_max : Nat

/-- The literal configuration of the script's client:
`reconnection=True, reconnection_attempts=5, reconnection_delay=1,
reconnection_delay_max=5`. -/
def sioConfig : SioConfig :=
  { reconnection := true
  , reconnection_attempts := 5
  , reconnection_delay := 1
  , reconnection_delay_max := 5 }

/-- Modelled from the spec: the transport's retry delay before attempt `k`.
The transport library is not part of the source tree; the spec says
transient connection errors are retried "with increasing delay (bounded
exponential-ish backoff, capped)", the base delay and the cap coming from
the configuration above. -/
def retryDelay (cfg : SioConfig) (k : Nat) : Nat :=
  min (cfg.reconnection_delay * 2 ^ k) cfg.reconnection_delay_max

/-- Modelled from the spec: the transport's bounded retry loop, fuelled by
the configured attempt count.  `succeeds i` says whether the `i`-th attempt
reaches the server; exhaustion surfaces a terminal `ConnectionError`. -/
def attemptLoop (succeeds : Nat → Bool) : Nat → Nat → Except String Nat
  | _, 0 => Except.error "ConnectionError"
  | i, fuel + 1 => if succeeds i then Except.ok i else attemptLoop succeeds (i + 1) fuel

/-- Modelled from the spec: `connect` as the transport performs it — up to
`reconnection_attempts` attempts, then a terminal `ConnectionError` to the
caller. -/
def connectWithRetries (cfg : SioConfig) (succeeds : Nat → Bool) : Except String Nat :=
  attemptLoop succeeds 0 cfg.reconnection_attempts

/-- Modelled from the spec: the client's connection state machine,
`Disconnected -> Connecting -> Connected -> Disconnected` with an
`AuthFailed` terminal sub-state reachable only from `Connecting`. -/
inductive ClientState where
  | disconnected
  | connecting
  | connected
  | authFailed
deriving DecidableEq

/-- A callback fired on the client, as observed by its caller. -/
inductive CbEvent where
  | connectedCb
  | authFailedCb
  | reconnectAttemptCb
deriving DecidableEq

/-- Modelled from the spec: the handshake outcome of one connection attempt.
The websocket server that validates the API key is not part of the source
tree; per the spec, success fires one `connected` callback, and
authentication rejection fires one `authFailed` callback and leaves the
connection closed in the terminal `AuthFailed` sub-state. -/
def handshake (keyCorrect : Bool) : ClientState × List CbEvent :=
  if keyCorrect then (ClientState.connected, [CbEvent.connectedCb])
  else (ClientState.authFailed, [CbEvent.authFailedCb])

/-- Modelled from the spec: one automatic step of the transport after the
handshake.  Automatic reconnection applies only to transient network
failure (a dropped established session, state `disconnected`); it never
applies to `AuthFailed`, which is terminal. -/
def autoReconnectStep : ClientState → ClientState × List CbEvent
  | ClientState.disconnected => (ClientState.connecting, [CbEvent.reconnectAttemptCb])
  | ClientState.connecting => (ClientState.connecting, [])
  | ClientState.connected => (ClientState.connected, [])
  | ClientState.authFailed => (ClientState.authFailed, [])

/-- Iterates `n` automatic transport steps from a state, collecting fired callbacks. -/
def runAuto : ClientState → Nat → ClientState × List CbEvent
  | s, 0 => (s, [])
  | s, n + 1 =>
      let p := autoReconnectStep s
      let q := runAuto p.1 n
      (q.1, p.2 ++ q.2)

/-- A connection attempt followed by `n` automatic transport steps: the
full observable trace of `connect`. -/
def connectTrace (keyCorrect : Bool) (n : Nat) : ClientState × List CbEvent :=
  let h := handshake keyCorrect
  let r := runAuto h.1 n
  (r.1, h.2 ++ r.2)

/-- Modelled from the spec: the transport library's `disconnect` operation,
"closes the connection; idempotent (calling when already disconnected is a
no-op)".  It never raises. -/
def clientDisconnect (st : PyClientState) :
    Except String (PyClientState × List Effect) :=
  if st.connected then Except.ok ({ connected := false }, [Effect.closeConn])
  else Except.ok (st, [])

/-- The functions defined by the script. -/
inductive Fn where
  | connectHandler
  | disconnectHandler
  | connectErrorHandler
  | authErrorHandler
  | notificationHandler
  | pongHandler
  | serverShutdownHandler
  | sendPing
  | mainFn
deriving DecidableEq

/-- The handlers registered on `sio` via `@sio.event` / `@sio.on`
(lines 38-100); the library may invoke any of them while connected. -/
def registeredHandlers : List Fn :=
  [Fn.connectHandler, Fn.disconnectHandler, Fn.connectErrorHandler,
   Fn.authErrorHandler, Fn.notificationHandler, Fn.pongHandler,
   Fn.serverShutdownHandler]

/-- The script-defined functions each script function calls: none of them
calls another script-defined function (they call only the library and
`print`). -/
def callsOf : Fn → List Fn := fun _ => []

/-- The functions that can run: `main` (invoked by the
`if __name__ == '__main__'` guard, line 157) and the registered handlers
(dispatched by the library), closed under `callsOf`. -/
def reachableFns : List Fn :=
  let invoked := Fn.mainFn :: registeredHandlers
  invoked ++ invoked.flatMap callsOf

/-- The event names each script function passes to `sio.emit`. -/
def emitEventsOf : Fn → List String
  | Fn.connectHandler => ["subscribe"]
  | Fn.sendPing => ["ping"]
  | Fn.mainFn => ["unsubscribe"]
  | _ => []

/-! ## Theorems -/

theorem runAuto_authFailed (n : Nat) :
    runAuto ClientState.authFailed n = (ClientState.authFailed, []) := by
  induction n with
  | zero => rfl
  | succ n ih => simp [runAuto, autoReconnectStep, ih]

/-- Claim C1 (counterexample): when `sio.connect` raises a terminal
`ConnectionError`, `main` catches it, prints the error, and the process
exits with status 0, not a non-zero status — the `except` clause at
line 144 only prints, and nothing in the script calls `sys.exit`. -/
theorem C1_connection_error_exit_ce :
    (mainRun ⟨none, none, none⟩ (TryOutcome.raiseConnectionError "Connection refused")
        false false).exitCode = 0 ∧
    OutLine.failedToConnect "Connection refused" ∈
      (mainRun ⟨none, none, none⟩ (TryOutcome.raiseConnectionError "Connection refused")
        false false).output := by
  refine ⟨rfl, ?_⟩
  simp [mainRun]

/-- Claim C1 (amended): if connecting fails with a terminal
`ConnectionError`, the program prints the error and then terminates with
exit status 0 — the same success status as a normal graceful shutdown, so
the exit status does not distinguish the two. -/
theorem C1_connection_error_prints_and_exits_zero (env : Env) (msg : String) :
    (mainRun env (TryOutcome.raiseConnectionError msg) false false).exitCode = 0 ∧
    OutLine.failedToConnect msg ∈
      (mainRun env (TryOutcome.raiseConnectionError msg) false false).output ∧
    (mainRun env TryOutcome.waitReturns true false).exitCode = 0 := by
  refine ⟨rfl, ?_, rfl⟩
  simp [mainRun]

/-- Claim C1 witness: a concrete run where `sio.connect` raises, showing
the printed error line. -/
theorem C1_connection_error_prints_and_exits_zero_witness :
    OutLine.failedToConnect "timed out" ∈
      (mainRun ⟨none, none, none⟩ (TryOutcome.raiseConnectionError "timed out")
        false false).output :=
  (C1_connection_error_prints_and_exits_zero ⟨none, none, none⟩ "timed out").2.1

/-- Claim C2 (counterexample): on a `KeyboardInterrupt` while connected,
if the `sio.emit('unsubscribe', ...)` at line 151 raises, the
`sio.disconnect()` at line 152 is *not* attempted — the two statements sit
in the same `finally` block with no inner `try`, so the exception aborts
the block (and the process exits non-zero). -/
theorem C2_unsubscribe_failure_skips_disconnect_ce :
    Effect.emit "unsubscribe" (some "python-clients") ∈
      (mainRun ⟨none, none, none⟩ TryOutcome.raiseKeyboardInterrupt true true).effects ∧
    Effect.closeConn ∉
      (mainRun ⟨none, none, none⟩ TryOutcome.raiseKeyboardInterrupt true true).effects ∧
    (mainRun ⟨none, none, none⟩ TryOutcome.raiseKeyboardInterrupt true true).exitCode = 1 := by
  refine ⟨?_, ?_, rfl⟩ <;> simp [mainRun]

/-- Claim C2 (amended): on external interruption while connected, the
shutdown path emits `unsubscribe` and then performs `disconnect` when the
unsubscribe emit succeeds; when the unsubscribe emit raises, `disconnect`
is not attempted and the exception propagates, exiting non-zero. -/
theorem C2_interrupt_shutdown_sequence (env : Env) :
    (mainRun env TryOutcome.raiseKeyboardInterrupt true false).effects
      = [Effect.emit "unsubscribe" (some "python-clients"), Effect.closeConn] ∧
    OutLine.interruptedByUser ∈
      (mainRun env TryOutcome.raiseKeyboardInterrupt true false).output ∧
    (mainRun env TryOutcome.raiseKeyboardInterrupt true false).exitCode = 0 ∧
    (mainRun env TryOutcome.raiseKeyboardInterrupt true true).effects
      = [Effect.emit "unsubscribe" (some "python-clients")] ∧
    (mainRun env TryOutcome.raiseKeyboardInterrupt true true).exitCode = 1 := by
  refine ⟨rfl, ?_, rfl, rfl, rfl⟩
  simp [mainRun]

/-- Claim C2 witness: the concrete shutdown effect sequence of an
interrupted run whose unsubscribe emit succeeds. -/
theorem C2_interrupt_shutdown_sequence_witness :
    (mainRun ⟨none, none, none⟩ TryOutcome.raiseKeyboardInterrupt true false).effects
      = [Effect.emit "unsubscribe" (some "python-clients"), Effect.closeConn] :=
  (C2_interrupt_shutdown_sequence ⟨none, none, none⟩).1

/-- Claim C3: for every connection attempt rejected for authentication
(incorrect API key), the `authFailed` callback fires exactly once, the
client never enters the `Connected` state at any later point of the trace,
and no automatic reconnection attempt follows the rejection
(`AuthFailed` is terminal for the transport's reconnection policy). -/
theorem C3_auth_rejection_terminal (keyCorrect : Bool) (n : Nat)
    (h : keyCorrect = false) :
    connectTrace keyCorrect n = (ClientState.authFailed, [CbEvent.authFailedCb]) ∧
    (connectTrace keyCorrect n).1 ≠ ClientState.connected ∧
    List.count CbEvent.authFailedCb (connectTrace keyCorrect n).2 = 1 ∧
    CbEvent.reconnectAttemptCb ∉ (connectTrace keyCorrect n).2 := by
  subst h
  have htr : connectTrace false n = (ClientState.authFailed, [CbEvent.authFailedCb]) := by
    simp [connectTrace, handshake, runAuto_authFailed]
  refine ⟨htr, ?_, ?_, ?_⟩ <;> rw [htr] <;> decide

/-- Claim C3 witness: the concrete trace with a wrong key and three
automatic transport steps. -/
theorem C3_auth_rejection_terminal_witness :
    connectTrace false 3 = (ClientState.authFailed, [CbEvent.authFailedCb]) :=
  (C3_auth_rejection_terminal false 3 rfl).1

/-- Claim C4 (counterexample): the `pong` handler does not update any
last-liveness timestamp — at a concrete connected state and payload its
entire result is the unchanged state and a single printed line; the script
keeps no liveness state at all. -/
theorem C4_pong_updates_nothing_ce :
    on_pong { connected := true } (PyValue.pystr "ok")
      = ({ connected := true }, [], [OutLine.pongReceived (PyValue.pystr "ok")]) := rfl

/-- Claim C4 (amended): when a pong arrives the handler only prints the
payload and leaves the client state unchanged (the script maintains no
last-liveness timestamp), and the connection is not closed as a
consequence of pongs or their absence: neither `on_pong` nor `send_ping`
performs a close effect or changes the `connected` flag, and the script
has no pong-timeout logic. -/
theorem C4_pong_print_only (st : PyClientState) (d : PyValue) :
    on_pong st d = (st, [], [OutLine.pongReceived d]) ∧
    (on_pong st d).1.connected = st.connected ∧
    Effect.closeConn ∉ (on_pong st d).2.1 ∧
    send_ping st = (st, [Effect.emit "ping" none], [OutLine.pingSent]) ∧
    Effect.closeConn ∉ (send_ping st).2.1 := by
  refine ⟨rfl, rfl, ?_, rfl, ?_⟩ <;> simp [on_pong, send_ping]

/-- Claim C4 witness: a concrete pong on a disconnected client — a print,
nothing else. -/
theorem C4_pong_print_only_witness :
    on_pong { connected := false } PyValue.pynone
      = ({ connected := false }, [], [OutLine.pongReceived PyValue.pynone]) :=
  (C4_pong_print_only { connected := false } PyValue.pynone).1

/-- Claim C5: `disconnect` is idempotent — it never raises, and calling it
again on the state a first call produced (in particular on the
disconnected state a graceful shutdown leaves behind) performs no effect
and leaves the state unchanged. -/
theorem C5_disconnect_idempotent (st : PyClientState) :
    (∃ p, clientDisconnect st = Except.ok p) ∧
    (∀ st' effs, clientDisconnect st = Except.ok (st', effs) →
      clientDisconnect st' = Except.ok (st', [])) ∧
    clientDisconnect { connected := false }
      = Except.ok ({ connected := false }, []) := by
  refine ⟨?_, ?_, rfl⟩
  · unfold clientDisconnect
    split <;> exact ⟨_, rfl⟩
  · intro st' effs h
    by_cases hc : st.connected
    · simp [clientDisconnect, hc] at h
      simp [clientDisconnect, ← h.1]
    · simp [clientDisconnect, hc] at h
      obtain ⟨h1, h2⟩ := h
      subst h1
      simp [clientDisconnect, hc]

/-- Claim C5 witness: disconnecting a connected client and then calling
`disconnect` again is a no-op with no error. -/
theorem C5_disconnect_idempotent_witness :
    clientDisconnect { connected := false }
      = Except.ok ({ connected := false }, []) :=
  (C5_disconnect_idempotent { connected := true }).2.1
    { connected := false } [Effect.closeConn] rfl

/-- Claim C10: `send_ping` is never invoked — it is not among the
reachable functions (`main` plus the registered handlers, closed under the
script's internal call graph), even though it is the one function that
emits `ping`; no reachable function emits `ping`, and no run of `main`
ever performs a `ping` emit effect. -/
theorem C10_send_ping_never_invoked :
    Fn.sendPing ∉ reachableFns ∧
    "ping" ∈ emitEventsOf Fn.sendPing ∧
    (∀ f, f ∈ reachableFns → "ping" ∉ emitEventsOf f) ∧
    (∀ f g, f ∈ reachableFns → g ∈ callsOf f → g ∈ reachableFns) ∧
    (∀ env outcome caf ur a,
      Effect.emit "ping" a ∉ (mainRun env outcome caf ur).effects) := by
  refine ⟨by decide, by decide, ?_, ?_, ?_⟩
  · intro f hf
    cases f <;> simp_all [reachableFns, registeredHandlers, callsOf, emitEventsOf]
  · intro f g _ hg
    simp [callsOf] at hg
  · intro env outcome caf ur a
    cases caf <;> cases ur <;> simp [mainRun]

theorem attemptLoop_all_fail (succeeds : Nat → Bool) (h : ∀ i, succeeds i = false) :
    ∀ fuel i, attemptLoop succeeds i fuel = Except.error "ConnectionError" := by
  intro fuel
  induction fuel with
  | zero => intro i; rfl
  | succ n ih => intro i; simp [attemptLoop, h i, ih]

theorem attemptLoop_ok_lt (succeeds : Nat → Bool) :
    ∀ fuel i j, attemptLoop succeeds i fuel = Except.ok j → j < i + fuel := by
  intro fuel
  induction fuel with
  | zero => intro i j h; simp [attemptLoop] at h
  | succ n ih =>
      intro i j h
      by_cases hs : succeeds i
      · simp [attemptLoop, hs] at h
        omega
      · simp [attemptLoop, hs] at h
        have := ih (i + 1) j h
        omega

/-- Claim C6: the client is configured with a finite reconnection-attempt
limit (5) and a capped, nondecreasing (and initially increasing) retry
delay; when every attempt fails, the retry loop terminates and surfaces a
terminal `ConnectionError`, and any successful connect happens within the
configured attempt bound. -/
theorem C6_bounded_retries :
    sioConfig.reconnection = true ∧
    sioConfig.reconnection_attempts = 5 ∧
    (∀ succeeds : Nat → Bool, (∀ i, succeeds i = false) →
      connectWithRetries sioConfig succeeds = Except.error "ConnectionError") ∧
    (∀ succeeds j, connectWithRetries sioConfig succeeds = Except.ok j →
      j < sioConfig.reconnection_attempts) ∧
    (∀ j k, j ≤ k → retryDelay sioConfig j ≤ retryDelay sioConfig k) ∧
    (∀ k, retryDelay sioConfig k ≤ sioConfig.reconnection_delay_max) ∧
    retryDelay sioConfig 0 < retryDelay sioConfig 1 := by
  refine ⟨rfl, rfl, ?_, ?_, ?_, ?_, by decide⟩
  · intro s h
    exact attemptLoop_all_fail s h 5 0
  · intro s j h
    have := attemptLoop_ok_lt s 5 0 j h
    simpa [sioConfig] using this
  · intro j k hjk
    have hpow : (2 : Nat) ^ j ≤ 2 ^ k := Nat.pow_le_pow_right (by norm_num) hjk
    simp only [retryDelay, sioConfig, one_mul]
    exact min_le_min hpow le_rfl
  · intro k
    exact min_le_right _ _

/-- Claim C6 witness: with every attempt failing, the concrete configured
loop surfaces `ConnectionError`; the delay is monotone at concrete indices. -/
theorem C6_bounded_retries_witness :
    connectWithRetries sioConfig (fun _ => false) = Except.error "ConnectionError" ∧
    retryDelay sioConfig 2 ≤ retryDelay sioConfig 4 :=
  ⟨C6_bounded_retries.2.2.1 (fun _ => false) (fun _ => rfl),
   C6_bounded_retries.2.2.2.2.1 2 4 (by norm_num)⟩

/-- Claim C7: for every configuration, the auth payload contains the
`email` field, contains `apiKey` exactly when the API key is non-empty,
the pre-connect phase of `main` never raises, and an absent API key yields
the printed warning (present exactly when the key is empty). -/
theorem C7_auth_payload_shape (env : Env) :
    preConnect env
      = Except.ok (preConnectOut env, auth_payload (API_KEY env) (USER_EMAIL env)) ∧
    dictGet? (auth_payload (API_KEY env) (USER_EMAIL env)) "email"
      = some (PyValue.pystr (USER_EMAIL env)) ∧
    (dictGet? (auth_payload (API_KEY env) (USER_EMAIL env)) "apiKey"
      = some (PyValue.pystr (API_KEY env)) ↔ API_KEY env ≠ "") ∧
    (API_KEY env = "" → OutLine.warningNoApiKey1 ∈ preConnectOut env) ∧
    (API_KEY env ≠ "" → OutLine.warningNoApiKey1 ∉ preConnectOut env) := by
  refine ⟨rfl, ?_, ?_, ?_, ?_⟩
  · by_cases h : API_KEY env = "" <;> simp [auth_payload, dictGet?, h]
  · by_cases h : API_KEY env = "" <;> simp [auth_payload, dictGet?, h]
  · intro h
    simp [preConnectOut, warningLines, h]
  · intro h
    simp [preConnectOut, warningLines, h, banner]

/-- Claim C7 witness: with all environment variables unset the key is
empty, so the payload has an email, no `apiKey`, and the warning prints. -/
theorem C7_auth_payload_shape_witness :
    OutLine.warningNoApiKey1 ∈ preConnectOut ⟨none, none, none⟩ :=
  (C7_auth_payload_shape ⟨none, none, none⟩).2.2.2.1 rfl

/-- Claim C8: the startup banner masks the API key — a non-empty key is
printed as one asterisk per character, so any two keys of equal length
yield the same banner (only the length is observable), and an empty key
prints the fixed text `(not set)`. -/
theorem C8_banner_hides_key (url email k1 k2 : String)
    (hlen : k1.length = k2.length) (h1 : k1 ≠ "") :
    banner url k1 email = banner url k2 email ∧
    maskedApiKey k1 = String.mk (List.replicate k1.length '*') ∧
    maskedApiKey "" = "(not set)" := by
  have h2 : k2 ≠ "" := by
    intro hk
    apply h1
    have hk1 : k1.length = 0 := by rw [hlen, hk]; rfl
    cases k1 with
    | mk cs =>
        cases cs with
        | nil => rfl
        | cons a l => simp [String.length] at hk1
  refine ⟨?_, by simp [maskedApiKey, h1], rfl⟩
  simp [banner, maskedApiKey, h1, h2, hlen]

/-- Claim C8 witness: two distinct 12-character keys produce the same
banner. -/
theorem C8_banner_hides_key_witness :
    banner "http://localhost:3001" "secret-key-1" "python-client@example.com"
      = banner "http://localhost:3001" "aaaaaaaaaaaa" "python-client@example.com" :=
  (C8_banner_hides_key "http://localhost:3001" "python-client@example.com"
    "secret-key-1" "aaaaaaaaaaaa" (by decide) (by decide)).1

theorem pyIndex_ok_of_truthy (d : Dict) (k : String)
    (h : truthy (pyGet d k PyValue.pynone) = true) :
    pyIndex d k = Except.ok (pyGet d k PyValue.pynone) := by
  unfold pyIndex pyGet
  cases hd : dictGet? d k with
  | none =>
      rw [pyGet, hd] at h
      simp [truthy] at h
  | some v => simp

theorem titleSection_ok (d : Dict) : ∃ ts, titleSection d = Except.ok ts := by
  unfold titleSection
  by_cases h : truthy (pyGet d "title" PyValue.pynone) = true
  · rw [pyIndex_ok_of_truthy d "title" h]
    simp [h]
  · simp [h]

theorem dataSection_ok (d : Dict) : ∃ ds, dataSection d = Except.ok ds := by
  unfold dataSection
  by_cases h : truthy (pyGet d "data" PyValue.pynone) = true
  · rw [pyIndex_ok_of_truthy d "data" h]
    simp [h]
  · simp [h]

/-- Claim C9: for every dictionary payload, the notification handler never
raises a `KeyError` — it always returns output — and when `type`,
`message` or `timestamp` is absent the printed line carries the default
(`"unknown"`, `""`, `"N/A"` respectively). -/
theorem C9_notification_no_keyerror (data : Dict) :
    (∃ out, on_notification data = Except.ok out) ∧
    (∀ out, on_notification data = Except.ok out →
      (dictGet? data "type" = none →
        OutLine.notifType (PyValue.pystr "unknown") ∈ out) ∧
      (dictGet? data "message" = none →
        OutLine.notifMessage (PyValue.pystr "") ∈ out) ∧
      (dictGet? data "timestamp" = none →
        OutLine.notifTimestamp (PyValue.pystr "N/A") ∈ out)) := by
  obtain ⟨ts, hts⟩ := titleSection_ok data
  obtain ⟨ds, hds⟩ := dataSection_ok data
  constructor
  · refine ⟨[OutLine.notifHeader,
        OutLine.notifType (pyGet data "type" (PyValue.pystr "unknown"))]
      ++ ts ++ [OutLine.notifMessage (pyGet data "message" (PyValue.pystr ""))]
      ++ ds ++ [OutLine.notifTimestamp (pyGet data "timestamp" (PyValue.pystr "N/A")),
        OutLine.notifSeparator], ?_⟩
    unfold on_notification
    rw [hts, hds]
  · intro out hout
    unfold on_notification at hout
    rw [hts, hds] at hout
    have hout' := Except.ok.inj hout
    subst hout'
    refine ⟨?_, ?_, ?_⟩ <;> intro habs <;> simp [pyGet, habs]

/-- Claim C9 witness: a concrete payload with only a `title` field is
handled without error, printing every default. -/
theorem C9_notification_no_keyerror_witness :
    on_notification [("title", PyValue.pystr "T")]
      = Except.ok
          [OutLine.notifHeader, OutLine.notifType (PyValue.pystr "unknown"),
           OutLine.notifTitle (PyValue.pystr "T"),
           OutLine.notifMessage (PyValue.pystr ""),
           OutLine.notifTimestamp (PyValue.pystr "N/A"), OutLine.notifSeparator] ∧
    OutLine.notifType (PyValue.pystr "unknown") ∈
      [OutLine.notifHeader, OutLine.notifType (PyValue.pystr "unknown"),
       OutLine.notifTitle (PyValue.pystr "T"),
       OutLine.notifMessage (PyValue.pystr ""),
       OutLine.notifTimestamp (PyValue.pystr "N/A"), OutLine.notifSeparator] :=
  ⟨rfl, ((C9_notification_no_keyerror [("title", PyValue.pystr "T")]).2 _ rfl).1 rfl⟩

/-- Claim C10 witness: `main` itself emits no `ping`, and a concrete
graceful run performs no `ping` effect. -/
theorem C10_send_ping_never_invoked_witness :
    "ping" ∉ emitEventsOf Fn.mainFn ∧
    Effect.emit "ping" none ∉
      (mainRun ⟨none, none, none⟩ TryOutcome.waitReturns true false).effects :=
  ⟨C10_send_ping_never_invoked.2.2.1 Fn.mainFn (by decide),
   C10_send_ping_never_invoked.2.2.2.2 ⟨none, none, none⟩
     TryOutcome.waitReturns true false none⟩

